import Mathlib

/-!
Verification of the round state machine of the "AI or Not" browser quiz
game (`src/app.js`).  The game logic is shallowly embedded: the global
`gameState` object becomes a `GameState` record, each handler function
becomes a pure state transformer that also returns the list of observable
effects it emits (HUD updates, feedback flashes, end-of-game transitions,
scheduled grace delays), and the single-threaded event loop becomes a step
relation on session states.  The asynchronous media pipeline is abstracted
by an oracle `mediaOk : Nat → Bool` telling whether the scenario at a given
index materializes; the image-loader completion guard is modelled
separately as a small state machine over load/error/timeout events.
-/

/-- Constant `INITIAL_LIVES = 3` (app.js line 2). -/
def INITIAL_LIVES : Int := 3

/-- Constant `TIME_PER_ROUND = 5000` ms (app.js line 3). -/
def TIME_PER_ROUND : Nat := 5000

/-- Constant `IMAGE_LOAD_TIMEOUT_MS = 10000` ms (app.js line 4). -/
def IMAGE_LOAD_TIMEOUT_MS : Nat := 10000

/-- A scenario record from `scenario.json`.  Fields that may be absent in
the JSON object (`src`, `content`, and the AI flag under either the `isAI`
key or the fallback `isAi` key) are `Option`s; an absent key is `none`,
mirroring JavaScript `undefined`. -/
structure Scenario where
  type : String
  src : Option String
  content : Option String
  isAI : Option Bool
  isAi : Option Bool
deriving Repr, DecidableEq

/-- Observable effects emitted by the handlers: HUD updates (`updateHUD`),
feedback flashes (`flashFeedback`), the end-of-game transition (`endGame`,
carrying the triggering reason and the final score written to the result
screen), and the scheduling of the post-loss grace delay
(`setTimeout(nextRound, 500)`). -/
inductive Fx where
  | hud
  | flash (color : String)
  | ended (reason : String) (finalScore : Int)
  | grace (delayMs : Nat)
deriving Repr, DecidableEq

/-- The mutable `gameState` object (app.js lines 14-20).  The opaque timer
handle is modelled by the boolean `timerArmed`: `true` exactly when a round
timer is armed and has neither fired nor been cleared. -/
structure GameState where
  score : Int
  lives : Int
  currentScenarioIndex : Nat
  timerArmed : Bool
  acceptingInput : Bool
deriving Repr, DecidableEq

/-- The initial value of `gameState` (app.js lines 14-20). -/
def idleState : GameState :=
  { score := 0, lives := INITIAL_LIVES, currentScenarioIndex := 0,
    timerArmed := false, acceptingInput := false }

/-- Function `endGame(lastReason)` (app.js lines 380-388): clears the timer,
disables input, and displays the final score on the result screen. -/
def endGame (reason : String) (s : GameState) : GameState × List Fx :=
  ({ s with timerArmed := false, acceptingInput := false },
   [Fx.ended reason s.score])

/-- Function `startTimer()` (app.js lines 158-169): enables input and arms the
single-shot round timer. -/
def startTimer (s : GameState) : GameState :=
  { s with acceptingInput := true, timerArmed := true }

/-- Function `loadRound()` (app.js lines 125-156).  If the scenario sequence is
exhausted the game ends with "Simulation Complete."; otherwise the pending
timer is cleared and input disabled, then the round's media is
materialized (the oracle `mediaOk` tells whether `createRoundMediaNode`
succeeds for a given index); on failure the index is incremented and the
load retried recursively, on success the timer is armed. -/
def loadRound (sc : List Scenario) (mediaOk : Nat → Bool) (s : GameState) :
    GameState × List Fx :=
  if sc.length ≤ s.currentScenarioIndex then
    endGame "Simulation Complete." s
  else
    if mediaOk s.currentScenarioIndex then
      (startTimer { s with timerArmed := false, acceptingInput := false }, [])
    else
      loadRound sc mediaOk
        { s with timerArmed := false, acceptingInput := false,
                 currentScenarioIndex := s.currentScenarioIndex + 1 }
termination_by sc.length - s.currentScenarioIndex
decreasing_by simp at *; omega

/-- The first two statements of `handleLoss` (app.js lines 195-196):
`gameState.acceptingInput = false; gameState.lives--`. -/
def loseLife (s : GameState) : GameState :=
  { s with acceptingInput := false, lives := s.lives - 1 }

/-- Function `handleLoss(reason)` (app.js lines 194-206): disables input, decrements
lives, updates the HUD, flashes red; if lives reach 0 (the code tests the
decremented value with `<= 0`) the game ends with the triggering reason,
otherwise a 500 ms grace delay is scheduled before the next round. -/
def handleLoss (reason : String) (s : GameState) : GameState × List Fx :=
  if s.lives - 1 ≤ 0 then
    ((endGame reason (loseLife s)).1,
     [Fx.hud, Fx.flash "red"] ++ (endGame reason (loseLife s)).2)
  else
    (loseLife s, [Fx.hud, Fx.flash "red", Fx.grace 500])

/-- The round timer callback (app.js lines 166-168): the single-shot timer
fires (consuming itself) and invokes `handleLoss('Time Expired')`. -/
def onRoundTimeout (s : GameState) : GameState × List Fx :=
  handleLoss "Time Expired" { s with timerArmed := false }

/-- The synchronous prefix of `handleChoice` past the input guard (app.js
lines 176-177): input is disabled and the round timer disarmed
(`clearTimeout`) before any grading or asynchronous work. -/
def choiceSyncDisarm (s : GameState) : GameState :=
  { s with acceptingInput := false, timerArmed := false }

/-- Function `nextRound()` (app.js lines 208-214): increments the scenario index
and loads the next round. -/
def nextRound (sc : List Scenario) (mediaOk : Nat → Bool) (s : GameState) :
    GameState × List Fx :=
  loadRound sc mediaOk
    { s with currentScenarioIndex := s.currentScenarioIndex + 1 }

/-- Expression `currentData.isAI ?? currentData.isAi` (app.js line 180): nullish
coalescing of the two possible keys for the ground-truth AI flag. -/
def effectiveIsAi (c : Scenario) : Option Bool :=
  c.isAI.orElse fun _ => c.isAi

/-- Statement `gameState.score++` (app.js line 185). -/
def addScore (s : GameState) : GameState :=
  { s with score := s.score + 1 }

/-- Function `handleChoice(userChoice)` (app.js lines 171-192).  A no-op while
`acceptingInput` is false; otherwise input is disabled and the timer
disarmed (`choiceSyncDisarm`), then `userChoice === 'ai'` is strictly
compared against the scenario's AI flag; a correct answer scores and
advances, a wrong one is a loss.  The result is `none` (a crash, a
JavaScript `TypeError` on reading `.isAI` of `undefined`) only when the
current index has no scenario, which the input guard makes unreachable in
real sessions. -/
def handleChoice (userChoice : String) (sc : List Scenario)
    (mediaOk : Nat → Bool) (s : GameState) : Option (GameState × List Fx) :=
  if s.acceptingInput = false then some (s, [])
  else
    match sc[s.currentScenarioIndex]? with
    | none => none
    | some currentData =>
      if some (userChoice == "ai") = effectiveIsAi currentData then
        some ((nextRound sc mediaOk (addScore (choiceSyncDisarm s))).1,
              Fx.flash "green" ::
                (nextRound sc mediaOk (addScore (choiceSyncDisarm s))).2)
      else
        some (handleLoss "Incorrect Classification" (choiceSyncDisarm s))

/-- Function `startGame()` (app.js lines 86-114): a silent no-op when the scenario
list is empty; otherwise resets score, lives and index, clears any pending
timer, updates the HUD and loads the first round.  The list `sc` is the
scenario sequence after the session's shuffle. -/
def startGame (sc : List Scenario) (mediaOk : Nat → Bool) (s : GameState) :
    GameState × List Fx :=
  if sc.length = 0 then (s, [])
  else
    ((loadRound sc mediaOk idleState).1,
     Fx.hud :: (loadRound sc mediaOk idleState).2)

/-- Function `resetGame()` (app.js lines 390-398): clears any pending timer and
disables input, returning to the start screen without touching score,
lives or index. -/
def resetGame (s : GameState) : GameState :=
  { s with timerArmed := false, acceptingInput := false }

/-- Whether an effect list schedules the post-loss grace delay. -/
def schedulesGrace (fx : List Fx) : Bool :=
  fx.any fun e => match e with
    | Fx.grace _ => true
    | _ => false

/-- A session state: the `gameState` record together with whether a
`setTimeout(nextRound, 500)` grace callback is queued in the event loop. -/
structure SessionState where
  gs : GameState
  pendingGrace : Bool
deriving Repr, DecidableEq

/-- One event-loop step of a session: a choice click, the round timer
firing (possible only while armed), the queued grace callback firing, or a
restart click.  Each asynchronous media materialization may behave
differently, so every step carries its own oracle. -/
inductive Step (sc : List Scenario) : SessionState → SessionState → Prop where
  | choice (ch : String) (mediaOk : Nat → Bool) (st : SessionState)
      (out : GameState × List Fx)
      (h : handleChoice ch sc mediaOk st.gs = some out) :
      Step sc st ⟨out.1, st.pendingGrace || schedulesGrace out.2⟩
  | timeout (st : SessionState) (h : st.gs.timerArmed = true) :
      Step sc st
        ⟨(onRoundTimeout st.gs).1,
         st.pendingGrace || schedulesGrace (onRoundTimeout st.gs).2⟩
  | graceFire (mediaOk : Nat → Bool) (st : SessionState)
      (h : st.pendingGrace = true) :
      Step sc st ⟨(nextRound sc mediaOk st.gs).1, false⟩
  | reset (st : SessionState) :
      Step sc st ⟨resetGame st.gs, st.pendingGrace⟩

/-- States reachable within one session: the state produced by
`startGame` from the idle state, closed under event-loop steps. -/
inductive Reachable (sc : List Scenario) : SessionState → Prop where
  | init (mediaOk : Nat → Bool) :
      Reachable sc ⟨(startGame sc mediaOk idleState).1, false⟩
  | step {st st' : SessionState} :
      Reachable sc st → Step sc st st' → Reachable sc st'

/-- A renderable unit produced for a round: an image element or a text
paragraph. -/
inductive MediaNode where
  | image (src : String)
  | text (content : String)
deriving Repr, DecidableEq

/-- The synchronous content decision of `createRoundMediaNode(roundData)`
(app.js lines 254-265): for an image scenario the (asynchronous) image
load is requested for its `src`; for any other type a paragraph is built
synchronously with text `roundData.src ?? roundData.content ?? ''`. -/
def createRoundMediaNode (roundData : Scenario) : MediaNode :=
  if roundData.type == "image" then
    MediaNode.image (roundData.src.getD "")
  else
    MediaNode.text ((roundData.src.orElse fun _ => roundData.content).getD "")

/-- The events that can reach the completion guard of `loadImageElement`
(app.js lines 267-312): the bounded timeout firing, a successful
load (`onload` followed by the tolerated decode step), or the `onerror`
event. -/
inductive ImgEvent where
  | timeoutFire
  | loadOk
  | errorFire
deriving Repr, DecidableEq

/-- How the promise of `loadImageElement` settled. -/
inductive Settle where
  | resolved
  | rejected (msg : String)
deriving Repr, DecidableEq

/-- The closure state of one `loadImageElement` promise: the `done` guard
flag and the settlement recorded by the single permitted `resolve`/
`reject` call. -/
structure LoaderState where
  done : Bool
  settled : Option Settle
deriving Repr, DecidableEq

/-- The loader state at the start of `loadImageElement`. -/
def imgInit : LoaderState := { done := false, settled := none }

/-- Function `finish(error)` (app.js lines 272-288): a no-op once `done` is set;
otherwise sets `done`, clears the timeout and the event handlers, and
settles the promise (rejecting when an error is given, resolving
otherwise). -/
def finish (error : Option String) (st : LoaderState) : LoaderState :=
  if st.done then st
  else
    { done := true,
      settled := some (match error with
        | some msg => Settle.rejected msg
        | none => Settle.resolved) }

/-- Dispatch of one event to the completion guard: the timeout rejects
with the timeout message, `onload` runs `markReady` whose decode step is
tolerated and always ends in `finish(null)`, and `onerror` rejects with
the load-failure message. -/
def stepImg (src : String) (st : LoaderState) (e : ImgEvent) : LoaderState :=
  match e with
  | ImgEvent.timeoutFire => finish (some ("Image load timeout: " ++ src)) st
  | ImgEvent.loadOk => finish none st
  | ImgEvent.errorFire => finish (some ("Image failed to load: " ++ src)) st

/-- The loader state after a sequence of events has reached one
`loadImageElement` call's guard, in arrival order. -/
def runImg (src : String) (evs : List ImgEvent) : LoaderState :=
  evs.foldl (stepImg src) imgInit

/-- Helper: `loadRound` never touches score or lives and never schedules a grace
delay, whatever the media oracle does. -/
theorem loadRound_preserves (sc : List Scenario) (mediaOk : Nat → Bool)
    (s : GameState) :
    (loadRound sc mediaOk s).1.score = s.score ∧
    (loadRound sc mediaOk s).1.lives = s.lives ∧
    schedulesGrace (loadRound sc mediaOk s).2 = false := by
  have key : ∀ (n : Nat) (s : GameState), sc.length - s.currentScenarioIndex ≤ n →
      (loadRound sc mediaOk s).1.score = s.score ∧
      (loadRound sc mediaOk s).1.lives = s.lives ∧
      schedulesGrace (loadRound sc mediaOk s).2 = false := by
    intro n
    induction n with
    | zero =>
      intro s hs
      rw [loadRound]
      split
      · simp [endGame, schedulesGrace]
      · omega
    | succ n ih =>
      intro s hs
      rw [loadRound]
      split
      · simp [endGame, schedulesGrace]
      · split
        · simp [startTimer, schedulesGrace]
        · rename_i hlen hmedia
          have := ih { s with timerArmed := false, acceptingInput := false,
                              currentScenarioIndex := s.currentScenarioIndex + 1 }
            (by simp at hlen ⊢; omega)
          simpa using this
  exact key (sc.length - s.currentScenarioIndex) s (le_refl _)

/-- Helper: `loadRound` output flags: the round is either armed for input
(`startTimer`) or ended (`endGame`), and in the latter case both flags
are off. -/
theorem loadRound_flags (sc : List Scenario) (mediaOk : Nat → Bool)
    (s : GameState) :
    ((loadRound sc mediaOk s).1.acceptingInput = true ∧
       (loadRound sc mediaOk s).1.timerArmed = true) ∨
    ((loadRound sc mediaOk s).1.acceptingInput = false ∧
       (loadRound sc mediaOk s).1.timerArmed = false) := by
  have key : ∀ (n : Nat) (s : GameState), sc.length - s.currentScenarioIndex ≤ n →
      ((loadRound sc mediaOk s).1.acceptingInput = true ∧
         (loadRound sc mediaOk s).1.timerArmed = true) ∨
      ((loadRound sc mediaOk s).1.acceptingInput = false ∧
         (loadRound sc mediaOk s).1.timerArmed = false) := by
    intro n
    induction n with
    | zero =>
      intro s hs
      rw [loadRound]
      split
      · simp [endGame]
      · omega
    | succ n ih =>
      intro s hs
      rw [loadRound]
      split
      · simp [endGame]
      · split
        · simp [startTimer]
        · rename_i hlen hmedia
          have := ih { s with timerArmed := false, acceptingInput := false,
                              currentScenarioIndex := s.currentScenarioIndex + 1 }
            (by simp at hlen ⊢; omega)
          simpa using this
  exact key (sc.length - s.currentScenarioIndex) s (le_refl _)

/-- Helper: `handleChoice` is the identity (with no effects) whenever
input is not being accepted. -/
theorem handleChoice_noop (ch : String) (sc : List Scenario)
    (mediaOk : Nat → Bool) (s : GameState) (h : s.acceptingInput = false) :
    handleChoice ch sc mediaOk s = some (s, []) := by
  simp [handleChoice, h]

/-- Helper: `handleLoss` always leaves input disabled. -/
theorem handleLoss_disables_input (reason : String) (s : GameState) :
    (handleLoss reason s).1.acceptingInput = false := by
  unfold handleLoss
  split <;> simp [endGame, loseLife]

/-- Helper: `handleLoss` decrements lives by one and keeps the score. -/
theorem handleLoss_fields (reason : String) (s : GameState) :
    (handleLoss reason s).1.lives = s.lives - 1 ∧
    (handleLoss reason s).1.score = s.score := by
  unfold handleLoss
  split <;> simp [endGame, loseLife]

/-- Helper: `nextRound` keeps score and lives and schedules no grace
delay, whatever the media oracle does. -/
theorem nextRound_preserves (sc : List Scenario) (mediaOk : Nat → Bool)
    (s : GameState) :
    (nextRound sc mediaOk s).1.score = s.score ∧
    (nextRound sc mediaOk s).1.lives = s.lives ∧
    schedulesGrace (nextRound sc mediaOk s).2 = false := by
  unfold nextRound
  exact loadRound_preserves sc mediaOk _

/-- C3: a `submitChoice` while `acceptingInput` is false is a no-op: the
state (score, lives, index, flags) is returned unchanged and no effect is
emitted. -/
theorem submitChoice_noop_when_input_disabled (ch : String)
    (sc : List Scenario) (mediaOk : Nat → Bool) (s : GameState)
    (h : s.acceptingInput = false) :
    handleChoice ch sc mediaOk s = some (s, []) :=
  handleChoice_noop ch sc mediaOk s h

/-- Witness for C3 at the idle state. -/
theorem submitChoice_noop_when_input_disabled_witness :
    handleChoice "ai" [] (fun _ => true) idleState = some (idleState, []) :=
  submitChoice_noop_when_input_disabled "ai" [] (fun _ => true) idleState rfl

/-- C6: advancing to a round whose index reaches the scenario count ends
the session with reason "Simulation Complete." and the final score
displayed; the transition changes only the timer and input flags, so
score and lives are untouched. -/
theorem sequence_exhausted_ends (sc : List Scenario) (mediaOk : Nat → Bool)
    (s : GameState) (h : s.currentScenarioIndex = sc.length) :
    loadRound sc mediaOk s =
      ({ s with timerArmed := false, acceptingInput := false },
       [Fx.ended "Simulation Complete." s.score]) ∧
    (loadRound sc mediaOk s).1.score = s.score ∧
    (loadRound sc mediaOk s).1.lives = s.lives := by
  have hle : sc.length ≤ s.currentScenarioIndex := le_of_eq h.symm
  rw [loadRound]
  simp [hle, endGame]

/-- Witness for C6: the empty scenario list at index 0. -/
theorem sequence_exhausted_ends_witness :
    (loadRound [] (fun _ => true) idleState =
      ({ idleState with timerArmed := false, acceptingInput := false },
       [Fx.ended "Simulation Complete." idleState.score]) ∧
    (loadRound [] (fun _ => true) idleState).1.score = idleState.score ∧
    (loadRound [] (fun _ => true) idleState).1.lives = idleState.lives) :=
  sequence_exhausted_ends [] (fun _ => true) idleState rfl

/-- C7: when the current round's media fails to materialize, `loadRound`
skips it by incrementing `currentScenarioIndex` and retrying recursively,
and the whole load (skips included) never changes score or lives. -/
theorem skip_unloadable_round (sc : List Scenario) (mediaOk : Nat → Bool)
    (s : GameState) (hlen : s.currentScenarioIndex < sc.length)
    (hfail : mediaOk s.currentScenarioIndex = false) :
    loadRound sc mediaOk s =
      loadRound sc mediaOk
        { s with timerArmed := false, acceptingInput := false,
                 currentScenarioIndex := s.currentScenarioIndex + 1 } ∧
    (loadRound sc mediaOk s).1.score = s.score ∧
    (loadRound sc mediaOk s).1.lives = s.lives := by
  refine ⟨?_, (loadRound_preserves sc mediaOk s).1,
          (loadRound_preserves sc mediaOk s).2.1⟩
  rw [loadRound]
  simp [Nat.not_le.mpr hlen, hfail]

/-- A sample text scenario labelled AI, used by concrete witnesses. -/
def sampleAiScenario : Scenario :=
  { type := "text", src := some "written by a machine", content := none,
    isAI := some true, isAi := none }

/-- Witness for C7: a one-scenario list whose media fails to load. -/
theorem skip_unloadable_round_witness :
    (loadRound [sampleAiScenario] (fun _ => false) idleState =
      loadRound [sampleAiScenario] (fun _ => false)
        { idleState with timerArmed := false, acceptingInput := false,
                         currentScenarioIndex := idleState.currentScenarioIndex + 1 } ∧
    (loadRound [sampleAiScenario] (fun _ => false) idleState).1.score =
      idleState.score ∧
    (loadRound [sampleAiScenario] (fun _ => false) idleState).1.lives =
      idleState.lives) :=
  skip_unloadable_round [sampleAiScenario] (fun _ => false) idleState
    (by decide) rfl

/-- C9: for a text scenario, `createRoundMediaNode` synchronously builds a
text unit whose content follows the fallback precedence `src`, then
`content`, then the empty string. -/
theorem text_scenario_fallback (c : Scenario) (h : c.type = "text") :
    createRoundMediaNode c =
      MediaNode.text ((c.src.orElse fun _ => c.content).getD "") ∧
    (∀ str : String, c.src = some str →
       createRoundMediaNode c = MediaNode.text str) ∧
    (c.src = none → ∀ t : String, c.content = some t →
       createRoundMediaNode c = MediaNode.text t) ∧
    (c.src = none → c.content = none →
       createRoundMediaNode c = MediaNode.text "") := by
  have himg : (c.type == "image") = false := by rw [h]; decide
  refine ⟨by simp [createRoundMediaNode, himg], ?_, ?_, ?_⟩
  · intro str hsrc
    simp [createRoundMediaNode, himg, hsrc, Option.orElse]
  · intro hsrc t hcontent
    simp [createRoundMediaNode, himg, hsrc, hcontent, Option.orElse]
  · intro hsrc hcontent
    simp [createRoundMediaNode, himg, hsrc, hcontent, Option.orElse]

/-- Witness for C9 on a concrete text scenario with a `src` field. -/
theorem text_scenario_fallback_witness :
    (createRoundMediaNode sampleAiScenario =
      MediaNode.text
        ((sampleAiScenario.src.orElse fun _ => sampleAiScenario.content).getD "") ∧
    (∀ str : String, sampleAiScenario.src = some str →
       createRoundMediaNode sampleAiScenario = MediaNode.text str) ∧
    (sampleAiScenario.src = none → ∀ t : String,
       sampleAiScenario.content = some t →
       createRoundMediaNode sampleAiScenario = MediaNode.text t) ∧
    (sampleAiScenario.src = none → sampleAiScenario.content = none →
       createRoundMediaNode sampleAiScenario = MediaNode.text "")) :=
  text_scenario_fallback sampleAiScenario rfl

/-- A game state in the middle of an active round, used by concrete
witnesses. -/
def activeState : GameState :=
  { score := 0, lives := INITIAL_LIVES, currentScenarioIndex := 0,
    timerArmed := true, acceptingInput := true }

/-- A text scenario carrying no AI flag under either key, used by
concrete witnesses. -/
def unlabeledScenario : Scenario :=
  { type := "text", src := some "who wrote this?", content := none,
    isAI := none, isAi := none }

/-- C10: when the current scenario has no boolean AI flag under `isAI` or
the fallback `isAi` key, every submitted choice is graded as incorrect
(the strict comparison against `undefined` is false for both booleans)
and handled as a loss. -/
theorem missing_flag_always_loss (ch : String) (sc : List Scenario)
    (mediaOk : Nat → Bool) (s : GameState) (c : Scenario)
    (hacc : s.acceptingInput = true)
    (hc : sc[s.currentScenarioIndex]? = some c)
    (h1 : c.isAI = none) (h2 : c.isAi = none) :
    handleChoice ch sc mediaOk s =
      some (handleLoss "Incorrect Classification" (choiceSyncDisarm s)) := by
  have hguard : ¬ (s.acceptingInput = false) := by rw [hacc]; simp
  have hflag : effectiveIsAi c = none := by
    simp [effectiveIsAi, h1, h2, Option.orElse]
  unfold handleChoice
  rw [if_neg hguard, hc]
  simp [hflag]

/-- Witness for C10: a flagless scenario during an active round. -/
theorem missing_flag_always_loss_witness :
    handleChoice "ai" [unlabeledScenario] (fun _ => true) activeState =
      some (handleLoss "Incorrect Classification"
        (choiceSyncDisarm activeState)) :=
  missing_flag_always_loss "ai" [unlabeledScenario] (fun _ => true)
    activeState unlabeledScenario rfl rfl rfl rfl

/-- C4: submitting the choice matching the scenario's AI flag during an
active round increments the score by exactly one, leaves lives unchanged,
emits the positive (green) feedback flash and advances
`currentScenarioIndex` by exactly one (the following round being loadable
and in range). -/
theorem correct_choice_scores (ch : String) (sc : List Scenario)
    (mediaOk : Nat → Bool) (s : GameState) (c : Scenario) (b : Bool)
    (hacc : s.acceptingInput = true)
    (hc : sc[s.currentScenarioIndex]? = some c)
    (hb : effectiveIsAi c = some b)
    (hch : (ch == "ai") = b)
    (hlen : s.currentScenarioIndex + 1 < sc.length)
    (hmedia : mediaOk (s.currentScenarioIndex + 1) = true) :
    handleChoice ch sc mediaOk s =
      some ({ s with
                score := s.score + 1,
                currentScenarioIndex := s.currentScenarioIndex + 1,
                timerArmed := true, acceptingInput := true },
            [Fx.flash "green"]) := by
  have hguard : ¬ (s.acceptingInput = false) := by rw [hacc]; simp
  unfold handleChoice
  rw [if_neg hguard, hc]
  simp only [hb, hch]
  rw [if_pos trivial]
  unfold nextRound addScore choiceSyncDisarm
  rw [loadRound]
  simp [Nat.not_le.mpr hlen, hmedia, startTimer]

/-- Witness for C4: a correct "ai" answer on the first of two AI-labelled
text scenarios. -/
theorem correct_choice_scores_witness :
    handleChoice "ai" [sampleAiScenario, sampleAiScenario] (fun _ => true)
      activeState =
      some ({ activeState with
                score := activeState.score + 1,
                currentScenarioIndex := activeState.currentScenarioIndex + 1,
                timerArmed := true, acceptingInput := true },
            [Fx.flash "green"]) :=
  correct_choice_scores "ai" [sampleAiScenario, sampleAiScenario]
    (fun _ => true) activeState sampleAiScenario true rfl rfl rfl rfl
    (by decide) rfl

/-- C5: a timeout is handled by the same loss handler as an incorrect
choice; the handler decrements lives by exactly one, keeps the score,
disables input, flashes red, and then either ends the game with the
triggering reason and the final score (decremented lives at or below 0)
or emits the 500 ms grace delay before the next round. -/
theorem loss_handling (reason : String) (s : GameState) :
    (handleLoss reason s).1.lives = s.lives - 1 ∧
    (handleLoss reason s).1.score = s.score ∧
    (handleLoss reason s).1.acceptingInput = false ∧
    Fx.flash "red" ∈ (handleLoss reason s).2 ∧
    onRoundTimeout s = handleLoss "Time Expired" { s with timerArmed := false } ∧
    (s.lives - 1 ≤ 0 →
       handleLoss reason s =
         ({ s with
             acceptingInput := false, timerArmed := false,
             lives := s.lives - 1 },
          [Fx.hud, Fx.flash "red", Fx.ended reason s.score])) ∧
    (0 < s.lives - 1 →
       handleLoss reason s =
         ({ s with acceptingInput := false, lives := s.lives - 1 },
          [Fx.hud, Fx.flash "red", Fx.grace 500])) := by
  refine ⟨(handleLoss_fields reason s).1, (handleLoss_fields reason s).2,
          handleLoss_disables_input reason s, ?_, rfl, ?_, ?_⟩
  · unfold handleLoss
    split <;> simp
  · intro h
    unfold handleLoss
    rw [if_pos h]
    simp [endGame, loseLife]
  · intro h
    unfold handleLoss
    rw [if_neg (by omega)]
    simp [loseLife]

/-- Witness for C5: a loss by timeout in the middle of an active round. -/
theorem loss_handling_witness :
    ((handleLoss "Time Expired" activeState).1.lives = activeState.lives - 1 ∧
    (handleLoss "Time Expired" activeState).1.score = activeState.score ∧
    (handleLoss "Time Expired" activeState).1.acceptingInput = false ∧
    Fx.flash "red" ∈ (handleLoss "Time Expired" activeState).2 ∧
    onRoundTimeout activeState =
      handleLoss "Time Expired" { activeState with timerArmed := false } ∧
    (activeState.lives - 1 ≤ 0 →
       handleLoss "Time Expired" activeState =
         ({ activeState with
             acceptingInput := false, timerArmed := false,
             lives := activeState.lives - 1 },
          [Fx.hud, Fx.flash "red",
           Fx.ended "Time Expired" activeState.score])) ∧
    (0 < activeState.lives - 1 →
       handleLoss "Time Expired" activeState =
         ({ activeState with
             acceptingInput := false,
             lives := activeState.lives - 1 },
          [Fx.hud, Fx.flash "red", Fx.grace 500]))) :=
  loss_handling "Time Expired" activeState

/-- C2: round resolution is mutually exclusive.  The synchronous prefix of
the choice path disarms the timer and disables input before any grading or
asynchronous work, so an armed timeout can no longer fire once a choice is
accepted; conversely the timeout path leaves input disabled, so a choice
arriving after the timeout handler ran is a no-op. -/
theorem round_resolution_exclusive (ch : String) (sc : List Scenario)
    (mediaOk : Nat → Bool) (s : GameState) (_h : s.acceptingInput = true) :
    (choiceSyncDisarm s).timerArmed = false ∧
    (choiceSyncDisarm s).acceptingInput = false ∧
    (onRoundTimeout s).1.acceptingInput = false ∧
    handleChoice ch sc mediaOk (onRoundTimeout s).1 =
      some ((onRoundTimeout s).1, []) := by
  refine ⟨rfl, rfl, handleLoss_disables_input _ _, ?_⟩
  exact handleChoice_noop _ _ _ _ (handleLoss_disables_input _ _)

/-- Witness for C2 during an active round. -/
theorem round_resolution_exclusive_witness :
    ((choiceSyncDisarm activeState).timerArmed = false ∧
    (choiceSyncDisarm activeState).acceptingInput = false ∧
    (onRoundTimeout activeState).1.acceptingInput = false ∧
    handleChoice "real" [sampleAiScenario] (fun _ => true)
        (onRoundTimeout activeState).1 =
      some ((onRoundTimeout activeState).1, [])) :=
  round_resolution_exclusive "real" [sampleAiScenario] (fun _ => true)
    activeState rfl

/-- Helper: once the `done` guard is set, every further event reaching the
completion guard is a no-op. -/
theorem stepImg_done (src : String) (st : LoaderState) (e : ImgEvent)
    (h : st.done = true) : stepImg src st e = st := by
  cases e <;> simp [stepImg, finish, h]

/-- Helper: once the `done` guard is set, any further event sequence is a
no-op. -/
theorem foldl_stepImg_done (src : String) (evs : List ImgEvent)
    (st : LoaderState) (h : st.done = true) :
    evs.foldl (stepImg src) st = st := by
  induction evs with
  | nil => rfl
  | cons e evs ih => rw [List.foldl_cons, stepImg_done src st e h]; exact ih

/-- Helper: the `done` guard is set exactly when the promise has settled,
for every state reachable from the start of `loadImageElement`. -/
theorem runImg_done_iff_settled (src : String) (evs : List ImgEvent) :
    (runImg src evs).done = (runImg src evs).settled.isSome := by
  have key : ∀ (l : List ImgEvent) (st : LoaderState),
      st.done = st.settled.isSome →
      (l.foldl (stepImg src) st).done =
        (l.foldl (stepImg src) st).settled.isSome := by
    intro l
    induction l with
    | nil => intro st h; exact h
    | cons e l ih =>
      intro st h
      rw [List.foldl_cons]
      refine ih _ ?_
      cases e <;> simp [stepImg, finish] <;> split <;> simp_all
  exact key evs imgInit rfl

/-- C8: each `loadImageElement` promise settles exactly once.  Whatever
settlement a prefix of the guard's events produced survives any further
events (the `done` guard makes late timeout or network events no-ops), a
promise that has seen at least one event has settled, and when the bounded
timeout is the first event to fire the promise is rejected with the
timeout failure. -/
theorem image_load_settles_once (src : String) (evs more : List ImgEvent)
    (v : Settle) (h : (runImg src evs).settled = some v) :
    (runImg src (evs ++ more)).settled = some v ∧
    (∀ l : List ImgEvent, l ≠ [] → (runImg src l).settled.isSome = true) ∧
    (runImg src (ImgEvent.timeoutFire :: more)).settled =
      some (Settle.rejected ("Image load timeout: " ++ src)) := by
  refine ⟨?_, ?_, ?_⟩
  · have hdone : (runImg src evs).done = true := by
      rw [runImg_done_iff_settled, h]
      rfl
    rw [runImg, List.foldl_append]
    rw [show List.foldl (stepImg src) imgInit evs = runImg src evs from rfl]
    rw [foldl_stepImg_done src more _ hdone]
    exact h
  · intro l hl
    cases l with
    | nil => exact absurd rfl hl
    | cons e rest =>
      rw [runImg, List.foldl_cons]
      have hfirst : (stepImg src imgInit e).done = true := by
        cases e <;> simp [stepImg, finish, imgInit]
      rw [foldl_stepImg_done src rest _ hfirst]
      cases e <;> simp [stepImg, finish, imgInit]
  · rw [runImg, List.foldl_cons]
    have hfirst : (stepImg src imgInit ImgEvent.timeoutFire).done = true := by
      simp [stepImg, finish, imgInit]
    rw [foldl_stepImg_done src more _ hfirst]
    simp [stepImg, finish, imgInit]

/-- Witness for C8: a successful load followed by a late timeout event. -/
theorem image_load_settles_once_witness :
    ((runImg "pic.png" ([ImgEvent.loadOk] ++ [ImgEvent.timeoutFire])).settled =
       some Settle.resolved ∧
    (∀ l : List ImgEvent, l ≠ [] →
       (runImg "pic.png" l).settled.isSome = true) ∧
    (runImg "pic.png" (ImgEvent.timeoutFire :: [ImgEvent.timeoutFire])).settled =
      some (Settle.rejected ("Image load timeout: " ++ "pic.png"))) :=
  image_load_settles_once "pic.png" [ImgEvent.loadOk] [ImgEvent.timeoutFire]
    Settle.resolved rfl

/-- The inductive session invariant: score is non-negative, lives stay
within `[0, INITIAL_LIVES]`, a loss is only possible (input accepted,
timer armed, or grace delay pending) while at least one life remains, and
a pending grace delay excludes an accepting or armed round. -/
def SessionInv (st : SessionState) : Prop :=
  0 ≤ st.gs.score ∧ 0 ≤ st.gs.lives ∧ st.gs.lives ≤ INITIAL_LIVES ∧
  ((st.gs.acceptingInput = true ∨ st.gs.timerArmed = true ∨
      st.pendingGrace = true) → 1 ≤ st.gs.lives) ∧
  (st.pendingGrace = true →
     st.gs.acceptingInput = false ∧ st.gs.timerArmed = false)

/-- Helper: a loss taken from a disarmed state with at least one life
left re-establishes the invariant (with the grace flag read off the
emitted effects). -/
theorem inv_afterLoss (reason : String) (s : GameState)
    (harmed : s.timerArmed = false) (hlives : 1 ≤ s.lives)
    (hmax : s.lives ≤ INITIAL_LIVES) (hscore : 0 ≤ s.score) :
    SessionInv ⟨(handleLoss reason s).1, schedulesGrace (handleLoss reason s).2⟩ := by
  unfold SessionInv handleLoss
  split
  · rename_i hle
    simp only [endGame, loseLife, schedulesGrace]
    refine ⟨hscore, by omega, by omega, ?_, ?_⟩ <;> simp
  · rename_i hgt
    simp only [loseLife, schedulesGrace]
    refine ⟨hscore, by omega, by omega, ?_, ?_⟩
    · intro _
      omega
    · intro _
      exact ⟨trivial, harmed⟩

/-- Helper: the state produced by `startGame` from the idle state
satisfies the invariant. -/
theorem inv_init (sc : List Scenario) (mediaOk : Nat → Bool) :
    SessionInv ⟨(startGame sc mediaOk idleState).1, false⟩ := by
  unfold startGame
  split
  · exact ⟨le_refl 0, by norm_num [idleState, INITIAL_LIVES],
      by norm_num [idleState, INITIAL_LIVES],
      fun _ => by norm_num [idleState, INITIAL_LIVES],
      fun hpg => absurd hpg (by simp)⟩
  · obtain ⟨hsc, hlv, -⟩ := loadRound_preserves sc mediaOk idleState
    refine ⟨?_, ?_, ?_, ?_, ?_⟩
    · rw [hsc]; norm_num [idleState]
    · rw [hlv]; norm_num [idleState, INITIAL_LIVES]
    · rw [hlv]; norm_num [idleState, INITIAL_LIVES]
    · intro _
      rw [hlv]; norm_num [idleState, INITIAL_LIVES]
    · intro hpg
      exact absurd hpg (by simp)

/-- Helper: every event-loop step preserves the session invariant. -/
theorem inv_step (sc : List Scenario) {st st' : SessionState}
    (hInv : SessionInv st) (hstep : Step sc st st') : SessionInv st' := by
  obtain ⟨hscore, hlives0, hlivesMax, hflag, hpg⟩ := hInv
  cases hstep with
  | choice ch mediaOk st out h =>
    cases hb : st.gs.acceptingInput with
    | false =>
      rw [handleChoice_noop ch sc mediaOk st.gs hb] at h
      injection h with h
      subst h
      simp only [schedulesGrace, List.any_nil, Bool.or_false]
      exact ⟨hscore, hlives0, hlivesMax, hflag, hpg⟩
    | true =>
      have hpgf : st.pendingGrace = false := by
        cases hq : st.pendingGrace
        · rfl
        · exact absurd hb (by simp [(hpg hq).1])
      have h1 : 1 ≤ st.gs.lives := hflag (Or.inl hb)
      unfold handleChoice at h
      rw [if_neg (by rw [hb]; simp)] at h
      cases hcs : sc[st.gs.currentScenarioIndex]? with
      | none =>
        rw [hcs] at h
        exact absurd h (by simp)
      | some c =>
        rw [hcs] at h
        simp only [] at h
        by_cases hg : some (ch == "ai") = effectiveIsAi c
        · rw [if_pos hg] at h
          injection h with h
          subst h
          obtain ⟨hsc2, hlv2, hgr2⟩ :=
            nextRound_preserves sc mediaOk (addScore (choiceSyncDisarm st.gs))
          refine ⟨?_, ?_, ?_, ?_, ?_⟩
          · rw [hsc2]
            simp only [addScore, choiceSyncDisarm]
            omega
          · rw [hlv2]
            simp only [addScore, choiceSyncDisarm]
            omega
          · rw [hlv2]
            simp only [addScore, choiceSyncDisarm]
            omega
          · intro _
            rw [hlv2]
            simp only [addScore, choiceSyncDisarm]
            omega
          · intro hpg'
            simp only [schedulesGrace] at hgr2
            simp [schedulesGrace, hgr2, hpgf] at hpg'
        · rw [if_neg hg] at h
          injection h with h
          subst h
          have hloss := inv_afterLoss "Incorrect Classification"
            (choiceSyncDisarm st.gs) rfl h1 hlivesMax hscore
          simpa [hpgf] using hloss
  | timeout st harm =>
    have hpgf : st.pendingGrace = false := by
      cases hq : st.pendingGrace
      · rfl
      · exact absurd harm (by simp [(hpg hq).2])
    have h1 : 1 ≤ st.gs.lives := hflag (Or.inr (Or.inl harm))
    have hloss := inv_afterLoss "Time Expired"
      { st.gs with timerArmed := false } rfl h1 hlivesMax hscore
    simpa [onRoundTimeout, hpgf] using hloss
  | graceFire mediaOk st hpgt =>
    have h1 : 1 ≤ st.gs.lives := hflag (Or.inr (Or.inr hpgt))
    obtain ⟨hsc2, hlv2, -⟩ := nextRound_preserves sc mediaOk st.gs
    refine ⟨?_, ?_, ?_, ?_, ?_⟩
    · simp only [hsc2]; omega
    · simp only [hlv2]; omega
    · simp only [hlv2]; omega
    · intro _
      simp only [hlv2]; omega
    · intro hpg'
      exact absurd hpg' (by simp)
  | reset st =>
    refine ⟨hscore, hlives0, hlivesMax, ?_, ?_⟩
    · intro hd
      rcases hd with hd | hd | hd
      · exact absurd hd (by simp [resetGame])
      · exact absurd hd (by simp [resetGame])
      · exact hflag (Or.inr (Or.inr hd))
    · intro _
      exact ⟨rfl, rfl⟩

/-- C1: in every state reachable within a session (startSession followed
by any sequence of choices, timeouts, grace advances, round skips and
resets), the lives counter stays within `[0, INITIAL_LIVES]` and the
score stays non-negative. -/
theorem lives_score_invariant (sc : List Scenario) (st : SessionState)
    (h : Reachable sc st) :
    0 ≤ st.gs.lives ∧ st.gs.lives ≤ INITIAL_LIVES ∧ 0 ≤ st.gs.score := by
  have hInv : SessionInv st := by
    induction h with
    | init mediaOk => exact inv_init sc mediaOk
    | step hr hs ih => exact inv_step sc ih hs
  exact ⟨hInv.2.1, hInv.2.2.1, hInv.1⟩

/-- Witness for C1: the state right after starting a session on the empty
scenario list. -/
theorem lives_score_invariant_witness :
    0 ≤ (SessionState.mk idleState false).gs.lives ∧
    (SessionState.mk idleState false).gs.lives ≤ INITIAL_LIVES ∧
    0 ≤ (SessionState.mk idleState false).gs.score :=
  lives_score_invariant [] ⟨idleState, false⟩
    (@Reachable.init [] (fun _ => true))
